import Mathlib

/-!
Shallow embedding of the warehouse backend (src/server.js): an Express/Mongoose
inventory-and-sales service.  Product and Sale documents are modelled as Lean
structures, the MongoDB collections as lists, and each route handler as a pure
function from the request and the current store to a response and a new store.
Mongo ObjectIds are modelled as `Nat`; a request may also carry a syntactically
invalid id, modelled as `none` (the `mongoose.Types.ObjectId.isValid` check of
the source distinguishes exactly these two cases).
-/

namespace Warehouse

/-- A Product document (mongoose model `Product`): name, sku,
quantity (Number, default 0), location, supplier, createdAt. -/
structure Product where
  id : Nat
  name : String
  sku : String
  quantity : Int
  location : String
  supplier : String
  createdAt : Nat
deriving Repr, DecidableEq

/-- A line item of a sale: `{ productId, quantity }`.  The productId as sent by
the client is `some pid` when it is a syntactically valid ObjectId and `none`
otherwise. -/
structure SaleItem where
  productId : Option Nat
  quantity : Int
deriving Repr, DecidableEq

/-- A Sale document (mongoose model `Sale`): channel, items, date
(milliseconds since epoch, defaulting to the current time). -/
structure Sale where
  channel : String
  items : List SaleItem
  date : Nat
deriving Repr, DecidableEq

/-- The database: the `products` and `sales` collections. -/
structure Store where
  products : List Product
  sales : List Sale
deriving Repr, DecidableEq

/-- Response bodies that the routes of server.js produce. -/
inductive Body where
  | err (msg : String)
  | saleDoc (s : Sale)
  | productDoc (p : Option Product)
  | productsDoc (ps : List Product)
  | messageDoc (msg : String)
deriving Repr, DecidableEq

/-- An HTTP response: status code and JSON body. -/
structure Response where
  status : Nat
  body : Body
deriving Repr, DecidableEq

/-- `Product.findById pid`: the first product whose `_id` equals `pid`. -/
def findProduct (ps : List Product) (pid : Nat) : Option Product :=
  ps.find? (fun p => p.id == pid)

/-- The request body of `POST /api/sales`: `{ channel, items, date }`.
`items` is `none` when the field is absent (the JS guard `!items`). -/
structure SaleRequest where
  channel : String
  items : Option (List SaleItem)
  date : Option Nat
deriving Repr, DecidableEq

/-- The validation loop of `POST /api/sales` (server.js lines 104-112): for
each item in order, reject an invalid productId, then look the product up and
reject when it is missing or its current quantity is below the requested one.
Returns `some errorMessage` for the first failing item, `none` when every item
passes. -/
def validateItems (ps : List Product) : List SaleItem → Option String
  | [] => none
  | item :: rest =>
    match item.productId with
    | none => some "Invalid productId"
    | some pid =>
      match findProduct ps pid with
      | none => some ("Insufficient stock for " ++ "Unknown")
      | some p =>
        if p.quantity < item.quantity then
          some ("Insufficient stock for " ++ p.name)
        else
          validateItems ps rest

/-- `Product.findByIdAndUpdate(pid, \x7b $inc: \x7b quantity: -q \x7d \x7d)`:
decrement the quantity of the product with id `pid`, leaving every other
product untouched (a no-op when no product has that id). -/
def decProduct (ps : List Product) (pid : Nat) (q : Int) : List Product :=
  ps.map (fun p => if p.id == pid then { p with quantity := p.quantity - q } else p)

/-- The decrement loop of `POST /api/sales` (server.js lines 115-119): one
`$inc` update per item, applied in order.  An item with an invalid id is
skipped (the branch is unreachable after validation). -/
def applyDecrements : List SaleItem → List Product → List Product
  | [], ps => ps
  | item :: rest, ps =>
    match item.productId with
    | some pid => applyDecrements rest (decProduct ps pid item.quantity)
    | none => applyDecrements rest ps

/-- The `POST /api/sales` handler (server.js lines 95-157), success path of the
store operations.  `now` is the current time used when the request carries no
date.  Returns the HTTP response and the updated store. -/
def postSales (store : Store) (now : Nat) (req : SaleRequest) : Response × Store :=
  match req.items with
  | none => (⟨400, Body.err "No items provided"⟩, store)
  | some items =>
    if items.length == 0 then
      (⟨400, Body.err "No items provided"⟩, store)
    else
      match validateItems store.products items with
      | some msg => (⟨400, Body.err msg⟩, store)
      | none =>
        let sale : Sale := ⟨req.channel, items, req.date.getD now⟩
        (⟨200, Body.saleDoc sale⟩,
         ⟨applyDecrements items store.products, store.sales ++ [sale]⟩)

/-- Total quantity requested for product `pid` across a list of items (a
product referenced by several line items is decremented once per item). -/
def itemsTotal : List SaleItem → Nat → Int
  | [], _ => 0
  | item :: rest, pid =>
    (if item.productId == some pid then item.quantity else 0) + itemsTotal rest pid

/-! ### Daily summary: `GET /api/sales/summary/:date` (server.js lines 170-213)

The route parses the date into a day window `[startD, endD]` (00:00:00.000 to
23:59:59.999 of that day); the aggregation below is modelled after that window
has been computed, so `startD` and `endD` are parameters. -/

/-- One group produced by the `channelSummary` aggregation: `_id` is the
channel, `totalQuantity` the `$sum` of the unwound items' quantities,
`totalOrders` the `$sum: 1` count. -/
structure ChannelGroup where
  channel : String
  totalQuantity : Int
  totalOrders : Nat
deriving Repr, DecidableEq

/-- The `$match` stage: sales whose date lies in the inclusive day window. -/
def matchedSales (startD endD : Nat) (sales : List Sale) : List Sale :=
  sales.filter (fun s => decide (startD ≤ s.date) && decide (s.date ≤ endD))

/-- The `$unwind: "$items"` stage: one `(channel, item quantity)` row per line
item of each matched sale. -/
def unwindItems (sales : List Sale) : List (String × Int) :=
  sales.flatMap (fun s => s.items.map (fun item => (s.channel, item.quantity)))

/-- The `$group` stage keyed on `$channel`: for each distinct channel of the
unwound rows, `totalQuantity` sums the quantities and `totalOrders` adds 1 per
row. -/
def groupByChannel (rows : List (String × Int)) : List ChannelGroup :=
  ((rows.map Prod.fst).dedup).map (fun c =>
    ⟨c, ((rows.filter (fun r => r.fst == c)).map Prod.snd).sum,
        (rows.filter (fun r => r.fst == c)).length⟩)

/-- The `$sort: \x7b _id: 1 \x7d` stage: groups ordered by channel ascending. -/
def sortGroups (gs : List ChannelGroup) : List ChannelGroup :=
  List.insertionSort (fun a b => a.channel ≤ b.channel) gs

/-- The `channelSummary` aggregation pipeline of `GET /api/sales/summary/:date`
(server.js lines 180-191): match the day window, unwind items, group by
channel, sort by channel ascending. -/
def channelSummary (startD endD : Nat) (sales : List Sale) : List ChannelGroup :=
  sortGroups (groupByChannel (unwindItems (matchedSales startD endD sales)))

/-! ### `PUT /api/products/:id` (server.js lines 77-85) -/

/-- The `PUT /api/products/:id` handler:
`Product.findByIdAndUpdate(id, \x7b $set: \x7b quantity \x7d \x7d, \x7b new: true \x7d)`
followed by `res.json(updated)`.  Returns the response body (`some` updated
record, or `none` — JSON `null` — when the id resolves to no product) and the
updated store. -/
def putProduct (store : Store) (pid : Nat) (q : Int) : Option Product × Store :=
  match findProduct store.products pid with
  | none => (none, store)
  | some p =>
    (some { p with quantity := q },
     { store with
        products :=
          store.products.map (fun r => if r.id == pid then { r with quantity := q } else r) })

/-! ### `GET /api/sales/:channel?start=&end=` -/

/-- A line item after `populate("items.productId", "name sku")`: the product
reference expanded to its id, name and sku, or `none` when it resolves to no
product. -/
structure PopulatedItem where
  product : Option (Nat × String × String)
  quantity : Int
deriving Repr, DecidableEq

/-- A sale as returned by the channel listing, items populated. -/
structure PopulatedSale where
  channel : String
  items : List PopulatedItem
  date : Nat
deriving Repr, DecidableEq

/-- Expand one line item's product reference to the product's name and SKU. -/
def populateItem (ps : List Product) (item : SaleItem) : PopulatedItem :=
  ⟨(match item.productId with
    | none => none
    | some pid => (findProduct ps pid).map (fun p => (p.id, p.name, p.sku))),
   item.quantity⟩

/-- Expand every line item of a sale. -/
def populateSale (ps : List Product) (s : Sale) : PopulatedSale :=
  ⟨s.channel, s.items.map (populateItem ps), s.date⟩

/-- Does a sale fall in the optional inclusive date range? -/
def inRange (startD endD : Option Nat) (s : Sale) : Bool :=
  (match startD with | some d => decide (d ≤ s.date) | none => true) &&
  (match endD with | some d => decide (s.date ≤ d) | none => true)

/-- Modelled from the spec: the route `GET /api/sales/:channel?start=&end=` is
described in spec §4.2 and §6 but absent from src/server.js.  Per the spec it
lists the sales of the given channel, optionally restricted to an inclusive
`[start, end]` date range, sorted by date descending (newest first), with each
line item's product reference expanded to the product's name and SKU. -/
def listSalesByChannel (store : Store) (ch : String) (startD endD : Option Nat) :
    List PopulatedSale :=
  let filtered := store.sales.filter (fun s => s.channel == ch && inRange startD endD s)
  (List.insertionSort (fun a b : Sale => b.date ≤ a.date) filtered).map
    (populateSale store.products)

/-! ### Error propagation of the route handlers

The sales routes (`POST /api/sales`, `GET /api/sales/summary/:date`,
`GET /api/sales/export`) wrap their bodies in try/catch and answer any thrown
error with `res.status(500).json(\x7b error: err.message \x7d)`.  The product
routes (server.js lines 65-90) are async handlers with no try/catch: a
rejected store operation escapes the handler and no response carrying the
error message is produced by the route code.  `DbOutcome` abstracts the result
of the underlying store call; `Except.error msg` models an escaped rejection. -/

/-- Outcome of an awaited store or file-system operation. -/
inductive DbOutcome (α : Type) where
  | ok (val : α)
  | failed (msg : String)
deriving Repr, DecidableEq

/-- `GET /api/products` (no try/catch): on success respond with the product
list; a store failure escapes the handler. -/
def getProductsRoute (dbr : DbOutcome (List Product)) : Except String Response :=
  match dbr with
  | .ok ps => .ok ⟨200, Body.productsDoc ps⟩
  | .failed msg => .error msg

/-- `POST /api/products` (no try/catch): on success respond with the created
record; a store failure escapes the handler. -/
def postProductsRoute (p : Product) (dbr : DbOutcome Unit) : Except String Response :=
  match dbr with
  | .ok _ => .ok ⟨200, Body.productDoc (some p)⟩
  | .failed msg => .error msg

/-- `PUT /api/products/:id` (no try/catch): on success respond with the update
result (possibly JSON null); a store failure escapes the handler. -/
def putProductsRoute (dbr : DbOutcome (Option Product)) : Except String Response :=
  match dbr with
  | .ok r => .ok ⟨200, Body.productDoc r⟩
  | .failed msg => .error msg

/-- `DELETE /api/products/:id` (no try/catch): on success respond with the
confirmation message; a store failure escapes the handler. -/
def deleteProductsRoute (dbr : DbOutcome Unit) : Except String Response :=
  match dbr with
  | .ok _ => .ok ⟨200, Body.messageDoc "Product deleted"⟩
  | .failed msg => .error msg

/-- The try/catch wrapper shared by the three sales routes: a completed body
yields its response, a thrown error yields
`res.status(500).json(\x7b error: err.message \x7d)`. -/
def salesRouteWrap (body : Except String Response) : Response :=
  match body with
  | .ok r => r
  | .error msg => ⟨500, Body.err msg⟩

/-! ### Frame of a sale recording -/

/-- Every field of a product except its quantity. -/
def frameFields (p : Product) : Nat × String × String × String × String × Nat :=
  (p.id, p.name, p.sku, p.location, p.supplier, p.createdAt)

/-! ### Helper lemmas -/

/-- Soundness of the validation loop: when it reports no error, every item that
references an existing product requests at most the stored quantity. -/
theorem validateItems_none_sound {ps : List Product} :
    ∀ {items : List SaleItem}, validateItems ps items = none →
      ∀ item ∈ items, ∀ pid, item.productId = some pid →
        ∀ p, findProduct ps pid = some p → ¬ p.quantity < item.quantity := by
  intro items
  induction items with
  | nil => intro _ item hmem; cases hmem
  | cons hd tl ih =>
    intro hv item hmem pid hpid p hfind hlt
    rcases List.mem_cons.mp hmem with rfl | hmem'
    · rw [validateItems] at hv
      simp only [hpid, hfind] at hv
      rw [if_pos hlt] at hv
      cases hv
    · rw [validateItems] at hv
      match hhd : hd.productId with
      | none =>
        simp only [hhd] at hv
        cases hv
      | some pid' =>
        simp only [hhd] at hv
        match hf : findProduct ps pid' with
        | none =>
          simp only [hf] at hv
          cases hv
        | some p' =>
          simp only [hf] at hv
          by_cases hq : p'.quantity < hd.quantity
          · rw [if_pos hq] at hv; cases hv
          · rw [if_neg hq] at hv
            exact ih hv item hmem' pid hpid p hfind hlt

/-- The decrement loop in closed form: every product's quantity drops by the
total quantity requested for it across the item list; nothing else changes. -/
theorem applyDecrements_eq_map :
    ∀ (items : List SaleItem) (ps : List Product),
      applyDecrements items ps =
        ps.map (fun p => { p with quantity := p.quantity - itemsTotal items p.id }) := by
  intro items
  induction items with
  | nil =>
    intro ps
    simp only [applyDecrements, itemsTotal, sub_zero]
    exact (List.map_id ps).symm
  | cons hd tl ih =>
    intro ps
    match hhd : hd.productId with
    | none =>
      rw [applyDecrements, hhd, ih]
      apply List.map_congr_left
      intro p _
      simp [itemsTotal, hhd]
    | some pid =>
      rw [applyDecrements]
      simp only [hhd]
      rw [ih]
      simp only [decProduct, List.map_map]
      apply List.map_congr_left
      intro p _
      simp only [Function.comp_apply, itemsTotal, hhd]
      by_cases hid : p.id = pid
      · subst hid
        simp [sub_sub]
      · have h1 : (p.id == pid) = false := by simp [hid]
        have h2 : (some pid == some p.id) = false := by
          simp [Ne.symm hid]
        simp [h1, h2]

/-- Requesting nothing for an unreferenced product: its total is zero. -/
theorem itemsTotal_eq_zero {items : List SaleItem} {pid : Nat}
    (h : ∀ item ∈ items, item.productId ≠ some pid) :
    itemsTotal items pid = 0 := by
  induction items with
  | nil => rfl
  | cons hd tl ih =>
    have hhd : (hd.productId == some pid) = false := by
      simp only [beq_eq_false_iff_ne]
      exact h hd (List.mem_cons_self hd tl)
    rw [itemsTotal, hhd, if_neg (by simp)]
    rw [zero_add]
    exact ih (fun item hmem => h item (List.mem_cons_of_mem hd hmem))

/-- The accepting run of `POST /api/sales` in closed form. -/
theorem postSales_accept (store : Store) (now : Nat) (req : SaleRequest)
    (items : List SaleItem) (hit : req.items = some items) (hne : items ≠ [])
    (hv : validateItems store.products items = none) :
    postSales store now req =
      (⟨200, Body.saleDoc ⟨req.channel, items, req.date.getD now⟩⟩,
       ⟨store.products.map (fun p => { p with quantity := p.quantity - itemsTotal items p.id }),
        store.sales ++ [⟨req.channel, items, req.date.getD now⟩]⟩) := by
  have hlen : (items.length == 0) = false := by
    simp [List.length_eq_zero, hne]
  rw [postSales, hit]
  simp only [hlen, Bool.false_eq_true, if_false, hv, applyDecrements_eq_map]

/-- The two possible effects of `POST /api/sales` on the products collection:
either the store is untouched (any rejection), or each quantity drops by the
total requested for that product. -/
theorem postSales_products_cases (store : Store) (now : Nat) (req : SaleRequest) :
    (postSales store now req).2 = store ∨
    ∃ items, req.items = some items ∧
      (postSales store now req).2.products =
        store.products.map (fun p => { p with quantity := p.quantity - itemsTotal items p.id }) := by
  match hit : req.items with
  | none => left; rw [postSales, hit]
  | some items =>
    by_cases hne : items = []
    · left
      subst hne
      rw [postSales, hit]
      rfl
    · match hv : validateItems store.products items with
      | some msg =>
        left
        have hlen : (items.length == 0) = false := by
          simp [List.length_eq_zero, hne]
        rw [postSales, hit]
        simp only [hlen, Bool.false_eq_true, if_false, hv]
      | none =>
        right
        exact ⟨items, rfl, by rw [postSales_accept store now req items hit hne hv]⟩

/-- `findProduct` after a `$set` of the quantity on id `pid`: the found record
is the old one with its quantity replaced. -/
theorem findProduct_after_set (ps : List Product) (pid : Nat) (q : Int) :
    findProduct (ps.map (fun r => if r.id == pid then { r with quantity := q } else r)) pid
      = (findProduct ps pid).map (fun p => { p with quantity := q }) := by
  induction ps with
  | nil => rfl
  | cons p rest ih =>
    by_cases hid : p.id = pid
    · have hb : (p.id == pid) = true := by simpa using hid
      rw [findProduct, findProduct, List.map_cons, if_pos hb,
          List.find?_cons_of_pos (p := fun r : Product => r.id == pid) (a := { p with quantity := q }) _ hb,
          List.find?_cons_of_pos (p := fun r : Product => r.id == pid) _ hb]
      rfl
    · have hb' : ¬ ((p.id == pid) = true) := by simp [hid]
      rw [findProduct, findProduct, List.map_cons, if_neg hb',
          List.find?_cons_of_neg (p := fun r : Product => r.id == pid) _ hb',
          List.find?_cons_of_neg (p := fun r : Product => r.id == pid) _ hb']
      exact ih

/-! ### Lemmas about the summary aggregation -/

theorem filter_channel_rows (c ch : String) (qs : List SaleItem) :
    ((qs.map (fun item => (ch, item.quantity))).filter (fun r => r.fst == c))
      = if ch == c then qs.map (fun item => (ch, item.quantity)) else [] := by
  induction qs with
  | nil => cases h : (ch == c) <;> simp [h]
  | cons hd tl ih => cases h : (ch == c) <;> simp [h] at ih ⊢ <;> exact ih

/-- Row count per channel, expressed over the matched sales: the rows of
channel `c` are exactly the line items of the sales of channel `c`. -/
theorem unwindItems_filter_length (c : String) (sales : List Sale) :
    ((unwindItems sales).filter (fun r => r.fst == c)).length
      = ((sales.filter (fun s => s.channel == c)).map (fun s => s.items.length)).sum := by
  induction sales with
  | nil => rfl
  | cons s rest ih =>
    have hstep : unwindItems (s :: rest)
        = s.items.map (fun item => (s.channel, item.quantity)) ++ unwindItems rest := rfl
    rw [hstep, List.filter_append, List.length_append, filter_channel_rows, ih]
    cases h : (s.channel == c) <;> simp [h]

/-- Row-quantity sum per channel, expressed over the matched sales. -/
theorem unwindItems_filter_sum (c : String) (sales : List Sale) :
    (((unwindItems sales).filter (fun r => r.fst == c)).map Prod.snd).sum
      = ((sales.filter (fun s => s.channel == c)).map
          (fun s => (s.items.map SaleItem.quantity).sum)).sum := by
  induction sales with
  | nil => rfl
  | cons s rest ih =>
    have hstep : unwindItems (s :: rest)
        = s.items.map (fun item => (s.channel, item.quantity)) ++ unwindItems rest := rfl
    have hmap : (s.items.map (fun item => (s.channel, item.quantity))).map Prod.snd
        = s.items.map SaleItem.quantity := by
      rw [List.map_map]
      rfl
    rw [hstep, List.filter_append, List.map_append, List.sum_append, filter_channel_rows, ih]
    cases h : (s.channel == c) <;> simp [h, hmap]

/-- A channel occurs among the unwound rows exactly when some sale of that
channel with at least one line item occurs among the sales. -/
theorem mem_unwindItems_fst (sales : List Sale) (c : String) :
    c ∈ (unwindItems sales).map Prod.fst ↔ ∃ s ∈ sales, s.channel = c ∧ s.items ≠ [] := by
  constructor
  · intro h
    obtain ⟨r, hr, hrc⟩ := List.mem_map.mp h
    obtain ⟨s, hs, hr'⟩ := List.mem_flatMap.mp hr
    obtain ⟨item, hitem, heq⟩ := List.mem_map.mp hr'
    refine ⟨s, hs, ?_, List.ne_nil_of_mem hitem⟩
    rw [← hrc, ← heq]
  · rintro ⟨s, hs, rfl, hne⟩
    obtain ⟨item, hitem⟩ := List.exists_mem_of_ne_nil s.items hne
    refine List.mem_map.mpr ⟨(s.channel, item.quantity), ?_, rfl⟩
    exact List.mem_flatMap.mpr ⟨s, hs, List.mem_map.mpr ⟨item, hitem, rfl⟩⟩

/-- Membership in the `$group` stage output, characterised. -/
theorem mem_groupByChannel {rows : List (String × Int)} {g : ChannelGroup} :
    g ∈ groupByChannel rows ↔
      g.channel ∈ (rows.map Prod.fst).dedup ∧
      g.totalQuantity = ((rows.filter (fun r => r.fst == g.channel)).map Prod.snd).sum ∧
      g.totalOrders = (rows.filter (fun r => r.fst == g.channel)).length := by
  constructor
  · intro h
    obtain ⟨c, hc, rfl⟩ := List.mem_map.mp h
    exact ⟨hc, rfl, rfl⟩
  · rintro ⟨hc, hq, ho⟩
    rcases g with ⟨c, tq, tn⟩
    refine List.mem_map.mpr ⟨c, hc, ?_⟩
    simp only [ChannelGroup.mk.injEq]
    exact ⟨trivial, hq.symm, ho.symm⟩

/-- The channels of the `$group` output are the distinct row channels. -/
theorem groupByChannel_channels (rows : List (String × Int)) :
    (groupByChannel rows).map ChannelGroup.channel = (rows.map Prod.fst).dedup := by
  rw [groupByChannel, List.map_map]
  exact List.map_id _

instance : IsTotal ChannelGroup (fun a b => a.channel ≤ b.channel) :=
  ⟨fun a b => le_total a.channel b.channel⟩

instance : IsTrans ChannelGroup (fun a b => a.channel ≤ b.channel) :=
  ⟨fun _ _ _ hab hbc => le_trans hab hbc⟩

instance : IsTotal Sale (fun a b => b.date ≤ a.date) :=
  ⟨fun a b => (le_total a.date b.date).symm⟩

instance : IsTrans Sale (fun a b => b.date ≤ a.date) :=
  ⟨fun _ _ _ hab hbc => le_trans hbc hab⟩

/-! ### Claims about `POST /api/sales` -/

/-- Claim C1, evidence of the code bug at the failing input: a product stocked
at 5 and a sale whose two line items each request 5 of that same product.  The
request is accepted (status 200 and a persisted sale), yet the product's
stored quantity ends at -5: the non-negativity invariant fails when a sale
references the same product in more than one line item, because every item is
validated against the untouched stock before any decrement is applied. -/
theorem postSales_duplicate_items_negative :
    (postSales ⟨[⟨1, "Widget", "W1", 5, "A1", "Acme", 0⟩], []⟩ 0
        ⟨"web", some [⟨some 1, 5⟩, ⟨some 1, 5⟩], some 3⟩).1.status = 200 ∧
    (postSales ⟨[⟨1, "Widget", "W1", 5, "A1", "Acme", 0⟩], []⟩ 0
        ⟨"web", some [⟨some 1, 5⟩, ⟨some 1, 5⟩], some 3⟩).2.sales.length = 1 ∧
    (postSales ⟨[⟨1, "Widget", "W1", 5, "A1", "Acme", 0⟩], []⟩ 0
        ⟨"web", some [⟨some 1, 5⟩, ⟨some 1, 5⟩], some 3⟩).2.products.map Product.quantity
      = [-5] := by
  decide

/-- Claim C3: a sale-recording request in which some referenced product exists
but its stored quantity is strictly below the requested quantity for that item
yields a 400 response and leaves the store untouched: no product quantity
changes and no sale record is persisted. -/
theorem postSales_insufficient_stock (store : Store) (now : Nat) (req : SaleRequest)
    (items : List SaleItem) (item : SaleItem) (pid : Nat) (p : Product)
    (hit : req.items = some items) (hmem : item ∈ items)
    (hpid : item.productId = some pid)
    (hfind : findProduct store.products pid = some p)
    (hlt : p.quantity < item.quantity) :
    (postSales store now req).1.status = 400 ∧ (postSales store now req).2 = store := by
  have hne : items ≠ [] := List.ne_nil_of_mem hmem
  have hlen : (items.length == 0) = false := by
    simp [List.length_eq_zero, hne]
  match hv : validateItems store.products items with
  | none =>
    exact absurd hlt (validateItems_none_sound hv item hmem pid hpid p hfind)
  | some msg =>
    rw [postSales, hit]
    simp [hlen, hv]

/-- Witness for C3: one product stocked at 2, one item requesting 3. -/
theorem postSales_insufficient_stock_witness :
    (postSales ⟨[⟨1, "Widget", "W1", 2, "A1", "Acme", 0⟩], []⟩ 0
        ⟨"web", some [⟨some 1, 3⟩], none⟩).1.status = 400 ∧
    (postSales ⟨[⟨1, "Widget", "W1", 2, "A1", "Acme", 0⟩], []⟩ 0
        ⟨"web", some [⟨some 1, 3⟩], none⟩).2 = ⟨[⟨1, "Widget", "W1", 2, "A1", "Acme", 0⟩], []⟩ :=
  postSales_insufficient_stock ⟨[⟨1, "Widget", "W1", 2, "A1", "Acme", 0⟩], []⟩ 0
    ⟨"web", some [⟨some 1, 3⟩], none⟩ [⟨some 1, 3⟩] ⟨some 1, 3⟩ 1
    ⟨1, "Widget", "W1", 2, "A1", "Acme", 0⟩ rfl (by decide) rfl rfl (by decide)

/-- Claim C4: a sale-recording request whose item list is absent or empty
yields a 400 response with the "No items provided" error and leaves the store
untouched: no product quantity is mutated and no sale record is created. -/
theorem postSales_no_items (store : Store) (now : Nat) (req : SaleRequest)
    (h : req.items = none ∨ req.items = some []) :
    (postSales store now req).1 = ⟨400, Body.err "No items provided"⟩ ∧
    (postSales store now req).2 = store := by
  rcases h with h | h <;> rw [postSales, h] <;> exact ⟨rfl, rfl⟩

/-- Witness for C4: an empty item list. -/
theorem postSales_no_items_witness :
    (postSales ⟨[], []⟩ 5 ⟨"web", some [], none⟩).1 = ⟨400, Body.err "No items provided"⟩ ∧
    (postSales ⟨[], []⟩ 5 ⟨"web", some [], none⟩).2 = ⟨[], []⟩ :=
  postSales_no_items ⟨[], []⟩ 5 ⟨"web", some [], none⟩ (Or.inr rfl)

/-- Claim C5: when every item passes validation, the response is the persisted
sale, exactly one sale record carrying the given items is appended, and every
product's quantity is decremented by exactly the quantity requested for it by
each item (the total across the items that reference it). -/
theorem postSales_valid_sale (store : Store) (now : Nat) (req : SaleRequest)
    (items : List SaleItem) (hit : req.items = some items) (hne : items ≠ [])
    (hv : validateItems store.products items = none) :
    (postSales store now req).1 = ⟨200, Body.saleDoc ⟨req.channel, items, req.date.getD now⟩⟩ ∧
    (postSales store now req).2.sales = store.sales ++ [⟨req.channel, items, req.date.getD now⟩] ∧
    (postSales store now req).2.products =
      store.products.map (fun p => { p with quantity := p.quantity - itemsTotal items p.id }) := by
  rw [postSales_accept store now req items hit hne hv]
  exact ⟨rfl, rfl, rfl⟩

/-- Witness for C5: product stocked at 10, one item requesting 3, final
quantity 7, one persisted sale returned as the response body. -/
theorem postSales_valid_sale_witness :
    (postSales ⟨[⟨1, "P", "S", 10, "L", "Sup", 0⟩], []⟩ 0 ⟨"web", some [⟨some 1, 3⟩], none⟩).1
      = ⟨200, Body.saleDoc ⟨"web", [⟨some 1, 3⟩], 0⟩⟩ ∧
    (postSales ⟨[⟨1, "P", "S", 10, "L", "Sup", 0⟩], []⟩ 0 ⟨"web", some [⟨some 1, 3⟩], none⟩).2.sales
      = [⟨"web", [⟨some 1, 3⟩], 0⟩] ∧
    ((postSales ⟨[⟨1, "P", "S", 10, "L", "Sup", 0⟩], []⟩ 0
        ⟨"web", some [⟨some 1, 3⟩], none⟩).2.products.map Product.quantity)
      = [7] := by
  obtain ⟨h1, h2, h3⟩ := postSales_valid_sale ⟨[⟨1, "P", "S", 10, "L", "Sup", 0⟩], []⟩ 0
    ⟨"web", some [⟨some 1, 3⟩], none⟩ [⟨some 1, 3⟩] rfl (by decide) (by decide)
  refine ⟨h1, h2.trans (by decide), ?_⟩
  rw [h3]
  decide

/-- Claim C6, counterexample: a line item with quantity 0 passes the stock
check (`product.quantity < 0` is false for non-negative stock), so the sale is
accepted and a sale record whose line item has quantity 0 is persisted —
contradicting both the claimed invariant and the claimed rejection. -/
theorem postSales_zero_quantity_accepted :
    (postSales ⟨[⟨1, "Widget", "W1", 5, "A1", "Acme", 0⟩], []⟩ 7
        ⟨"web", some [⟨some 1, 0⟩], none⟩).1.status = 200 ∧
    (postSales ⟨[⟨1, "Widget", "W1", 5, "A1", "Acme", 0⟩], []⟩ 7
        ⟨"web", some [⟨some 1, 0⟩], none⟩).2.sales = [⟨"web", [⟨some 1, 0⟩], 7⟩] := by
  decide

/-- Claim C6 as amended: the handler enforces no positivity on line-item
quantities.  A request whose single item references an existing product and
asks for a quantity ≤ 0 passes the stock check whenever the product's stored
quantity is non-negative, and the sale is accepted and persisted with that
non-positive quantity. -/
theorem postSales_nonpositive_item_accepted (store : Store) (now : Nat) (req : SaleRequest)
    (item : SaleItem) (pid : Nat) (p : Product)
    (hit : req.items = some [item]) (hpid : item.productId = some pid)
    (hfind : findProduct store.products pid = some p)
    (hq : item.quantity ≤ 0) (hp : 0 ≤ p.quantity) :
    (postSales store now req).1 = ⟨200, Body.saleDoc ⟨req.channel, [item], req.date.getD now⟩⟩ ∧
    (postSales store now req).2.sales = store.sales ++ [⟨req.channel, [item], req.date.getD now⟩] := by
  have hv : validateItems store.products [item] = none := by
    rw [validateItems]
    simp only [hpid, hfind]
    rw [if_neg (not_lt.mpr (le_trans hq hp))]
    rfl
  obtain ⟨h1, h2, _⟩ := postSales_valid_sale store now req [item] hit (by simp) hv
  exact ⟨h1, h2⟩

/-- Witness for the amended C6: quantity -2 against stock 5 is accepted and
persisted. -/
theorem postSales_nonpositive_item_accepted_witness :
    (postSales ⟨[⟨1, "Widget", "W1", 5, "A1", "Acme", 0⟩], []⟩ 7
        ⟨"web", some [⟨some 1, -2⟩], none⟩).1
      = ⟨200, Body.saleDoc ⟨"web", [⟨some 1, -2⟩], 7⟩⟩ ∧
    (postSales ⟨[⟨1, "Widget", "W1", 5, "A1", "Acme", 0⟩], []⟩ 7
        ⟨"web", some [⟨some 1, -2⟩], none⟩).2.sales = [⟨"web", [⟨some 1, -2⟩], 7⟩] := by
  have h := postSales_nonpositive_item_accepted ⟨[⟨1, "Widget", "W1", 5, "A1", "Acme", 0⟩], []⟩ 7
    ⟨"web", some [⟨some 1, -2⟩], none⟩ ⟨some 1, -2⟩ 1 ⟨1, "Widget", "W1", 5, "A1", "Acme", 0⟩
    rfl rfl rfl (by decide) (by decide)
  exact ⟨h.1, h.2⟩

/-! ### Claim about `PUT /api/products/:id` -/

/-- Claim C8: updating a product's quantity by identifier sets the quantity to
exactly the supplied value (not incrementally): the handler returns the
updated record, whose quantity is `q` whatever it was before, and the stored
record afterwards has quantity exactly `q`; when the identifier resolves to no
product, the handler returns the not-found indication (JSON null body,
modelled as `none`) and the store is untouched. -/
theorem putProduct_spec (store : Store) (pid : Nat) (q : Int) :
    (∀ p, findProduct store.products pid = some p →
        putProduct store pid q =
          (some { p with quantity := q },
           { store with
              products := store.products.map
                (fun r => if r.id == pid then { r with quantity := q } else r) }) ∧
        findProduct (putProduct store pid q).2.products pid = some { p with quantity := q }) ∧
    (findProduct store.products pid = none → putProduct store pid q = (none, store)) := by
  constructor
  · intro p hp
    have he : putProduct store pid q =
        (some { p with quantity := q },
         { store with
            products := store.products.map
              (fun r => if r.id == pid then { r with quantity := q } else r) }) := by
      rw [putProduct]
      simp only [hp]
    refine ⟨he, ?_⟩
    rw [he]
    dsimp only
    rw [findProduct_after_set, hp]
    rfl
  · intro hp
    rw [putProduct]
    simp only [hp]

/-- Witness for C8: setting quantity 7 over 3 stores exactly 7; an unresolved
id returns `none` and leaves the store unchanged. -/
theorem putProduct_spec_witness :
    putProduct ⟨[⟨1, "P", "S", 3, "L", "Sup", 0⟩], []⟩ 1 7
      = (some ⟨1, "P", "S", 7, "L", "Sup", 0⟩, ⟨[⟨1, "P", "S", 7, "L", "Sup", 0⟩], []⟩) ∧
    putProduct ⟨[⟨1, "P", "S", 3, "L", "Sup", 0⟩], []⟩ 9 7
      = (none, ⟨[⟨1, "P", "S", 3, "L", "Sup", 0⟩], []⟩) := by
  constructor
  · have h := ((putProduct_spec ⟨[⟨1, "P", "S", 3, "L", "Sup", 0⟩], []⟩ 1 7).1
      ⟨1, "P", "S", 3, "L", "Sup", 0⟩ rfl).1
    exact h.trans (by decide)
  · exact (putProduct_spec ⟨[⟨1, "P", "S", 3, "L", "Sup", 0⟩], []⟩ 9 7).2 rfl

/-! ### Claim C2: the daily summary aggregation -/

/-- Claim C2, counterexample: one sale in channel "A" with two line items.
The `$group` stage runs after `$unwind`, so its `$sum: 1` counts unwound line
items: the summary reports `totalOrders = 2` for channel "A" although only one
matching sale document exists — refuting "counts sale documents (not line
items) per channel as totalOrders". -/
theorem channelSummary_counts_items_not_docs :
    channelSummary 0 10 [⟨"A", [⟨some 1, 1⟩, ⟨some 2, 1⟩], 5⟩] = [⟨"A", 2, 2⟩] ∧
    ((matchedSales 0 10 [⟨"A", [⟨some 1, 1⟩, ⟨some 2, 1⟩], 5⟩]).filter
        (fun s => s.channel == "A")).length = 1 := by
  decide

/-- Claim C2 as amended: for the computed day window, the summary groups the
matching sales by channel, each group's totalQuantity sums the line-item
quantities of that channel's matching sales, each group's totalOrders counts
the line items (not the sale documents) of that channel's matching sales, the
groups are sorted by channel name ascending with no duplicate channel, and the
groups are exactly the channels of matching sales that have at least one line
item. -/
theorem channelSummary_spec (startD endD : Nat) (sales : List Sale) :
    (channelSummary startD endD sales).Pairwise (fun a b => a.channel ≤ b.channel) ∧
    ((channelSummary startD endD sales).map ChannelGroup.channel).Nodup ∧
    (∀ g ∈ channelSummary startD endD sales,
      g.totalQuantity
          = (((matchedSales startD endD sales).filter (fun s => s.channel == g.channel)).map
              (fun s => (s.items.map SaleItem.quantity).sum)).sum ∧
      g.totalOrders
          = (((matchedSales startD endD sales).filter (fun s => s.channel == g.channel)).map
              (fun s => s.items.length)).sum) ∧
    (∀ c : String,
      (∃ g ∈ channelSummary startD endD sales, g.channel = c) ↔
      ∃ s ∈ matchedSales startD endD sales, s.channel = c ∧ s.items ≠ []) := by
  refine ⟨?_, ?_, ?_, ?_⟩
  · exact List.sorted_insertionSort _ _
  · have hperm :
        List.Perm
          ((channelSummary startD endD sales).map ChannelGroup.channel)
          ((groupByChannel (unwindItems (matchedSales startD endD sales))).map
            ChannelGroup.channel) :=
      (List.perm_insertionSort _ _).map _
    rw [hperm.nodup_iff, groupByChannel_channels]
    exact List.nodup_dedup _
  · intro g hg
    have hg' : g ∈ groupByChannel (unwindItems (matchedSales startD endD sales)) :=
      (List.mem_insertionSort _).mp hg
    obtain ⟨-, hq, ho⟩ := mem_groupByChannel.mp hg'
    exact ⟨hq.trans (unwindItems_filter_sum g.channel _),
           ho.trans (unwindItems_filter_length g.channel _)⟩
  · intro c
    constructor
    · rintro ⟨g, hg, rfl⟩
      have hg' : g ∈ groupByChannel (unwindItems (matchedSales startD endD sales)) :=
        (List.mem_insertionSort _).mp hg
      obtain ⟨hc, -, -⟩ := mem_groupByChannel.mp hg'
      exact (mem_unwindItems_fst _ _).mp (List.mem_dedup.mp hc)
    · intro hs
      have hc : c ∈ ((unwindItems (matchedSales startD endD sales)).map Prod.fst).dedup :=
        List.mem_dedup.mpr ((mem_unwindItems_fst _ _).mpr hs)
      refine ⟨⟨c,
          (((unwindItems (matchedSales startD endD sales)).filter
              (fun r => r.fst == c)).map Prod.snd).sum,
          ((unwindItems (matchedSales startD endD sales)).filter
              (fun r => r.fst == c)).length⟩,
        (List.mem_insertionSort _).mpr (mem_groupByChannel.mpr ⟨hc, rfl, rfl⟩), rfl⟩

/-- Witness for the amended C2 at the spec's own example: two sales on one
day, channel "A" qty 2 and channel "B" qty 5. -/
theorem channelSummary_spec_witness :
    (channelSummary 0 10 [⟨"B", [⟨some 1, 5⟩], 5⟩, ⟨"A", [⟨some 2, 2⟩], 5⟩]).Pairwise
      (fun a b => a.channel ≤ b.channel) ∧
    ((channelSummary 0 10 [⟨"B", [⟨some 1, 5⟩], 5⟩, ⟨"A", [⟨some 2, 2⟩], 5⟩]).map
      ChannelGroup.channel).Nodup := by
  have h := channelSummary_spec 0 10 [⟨"B", [⟨some 1, 5⟩], 5⟩, ⟨"A", [⟨some 2, 2⟩], 5⟩]
  exact ⟨h.1, h.2.1⟩

/-! ### Claim C7: `GET /api/sales/:channel` (spec-modelled) -/

/-- Claim C7 (route modelled from the spec, absent from src/server.js): the
channel listing consists exactly of the sales of the requested channel inside
the optional inclusive date range, each with its line items' product
references expanded to name and SKU, ordered by date descending (newest
first). -/
theorem listSalesByChannel_spec (store : Store) (ch : String) (startD endD : Option Nat) :
    (listSalesByChannel store ch startD endD).Pairwise (fun a b => b.date ≤ a.date) ∧
    (listSalesByChannel store ch startD endD).Perm
      ((store.sales.filter (fun s => s.channel == ch && inRange startD endD s)).map
        (populateSale store.products)) ∧
    (∀ t ∈ listSalesByChannel store ch startD endD,
      t.channel = ch ∧
      (∀ d, startD = some d → d ≤ t.date) ∧
      (∀ d, endD = some d → t.date ≤ d)) := by
  refine ⟨?_, ?_, ?_⟩
  · exact List.Pairwise.map (populateSale store.products) (fun a b h => h)
      (List.sorted_insertionSort (fun a b : Sale => b.date ≤ a.date) _)
  · exact (List.perm_insertionSort _ _).map _
  · intro t ht
    obtain ⟨s, hs, rfl⟩ := List.mem_map.mp ht
    have hs' : s ∈ store.sales.filter (fun s => s.channel == ch && inRange startD endD s) :=
      (List.mem_insertionSort _).mp hs
    obtain ⟨-, hcond⟩ := List.mem_filter.mp hs'
    simp only [inRange, Bool.and_eq_true] at hcond
    obtain ⟨hch, h1, h2⟩ := hcond
    refine ⟨eq_of_beq hch, ?_, ?_⟩
    · intro d hd
      rw [hd] at h1
      exact of_decide_eq_true h1
    · intro d hd
      rw [hd] at h2
      exact of_decide_eq_true h2

/-- Witness for C7 at a concrete store: sales of channel "web" from date 1
onward come back newest first and populated. -/
theorem listSalesByChannel_spec_witness :
    (listSalesByChannel
        ⟨[⟨1, "P", "S", 10, "L", "Sup", 0⟩],
         [⟨"web", [⟨some 1, 2⟩], 5⟩, ⟨"web", [⟨some 2, 1⟩], 9⟩, ⟨"shop", [], 7⟩]⟩
        "web" (some 1) none).Pairwise (fun a b => b.date ≤ a.date) ∧
    (⟨"web", [⟨some (1, "P", "S"), 2⟩], 5⟩ : PopulatedSale) ∈
      listSalesByChannel
        ⟨[⟨1, "P", "S", 10, "L", "Sup", 0⟩],
         [⟨"web", [⟨some 1, 2⟩], 5⟩, ⟨"web", [⟨some 2, 1⟩], 9⟩, ⟨"shop", [], 7⟩]⟩
        "web" (some 1) none := by
  have h := listSalesByChannel_spec
    ⟨[⟨1, "P", "S", 10, "L", "Sup", 0⟩],
     [⟨"web", [⟨some 1, 2⟩], 5⟩, ⟨"web", [⟨some 2, 1⟩], 9⟩, ⟨"shop", [], 7⟩]⟩
    "web" (some 1) none
  exact ⟨h.1, h.2.1.mem_iff.mpr (by decide)⟩

/-! ### Claim C9: error propagation -/

/-- Claim C9, counterexample: when the store fails under `GET /api/products`,
the handler (which has no try/catch) produces no response at all — the
rejection escapes — rather than the claimed 500 response exposing the error
message. -/
theorem getProductsRoute_failure_no_response :
    getProductsRoute (DbOutcome.failed "disk failure") = Except.error "disk failure" ∧
    getProductsRoute (DbOutcome.failed "disk failure") ≠
      Except.ok ⟨500, Body.err "disk failure"⟩ :=
  ⟨rfl, fun h => Except.noConfusion h⟩

/-- Claim C9 as amended: the three sales routes, whose bodies are wrapped in
try/catch, turn any store or file-system failure into a 500 response exposing
the underlying error message; the four product routes have no try/catch, so
the failure escapes the handler and no response carrying the message is
produced by the route code. -/
theorem routeErrorHandling_spec (msg : String) (p : Product) :
    salesRouteWrap (Except.error msg) = ⟨500, Body.err msg⟩ ∧
    getProductsRoute (DbOutcome.failed msg) = Except.error msg ∧
    postProductsRoute p (DbOutcome.failed msg) = Except.error msg ∧
    putProductsRoute (DbOutcome.failed msg) = Except.error msg ∧
    deleteProductsRoute (DbOutcome.failed msg) = Except.error msg :=
  ⟨rfl, rfl, rfl, rfl, rfl⟩

/-- Witness for the amended C9 at a concrete message. -/
theorem routeErrorHandling_spec_witness :
    salesRouteWrap (Except.error "boom") = ⟨500, Body.err "boom"⟩ ∧
    getProductsRoute (DbOutcome.failed "boom") = Except.error "boom" ∧
    postProductsRoute ⟨1, "P", "S", 0, "L", "Sup", 0⟩ (DbOutcome.failed "boom")
      = Except.error "boom" ∧
    putProductsRoute (DbOutcome.failed "boom") = Except.error "boom" ∧
    deleteProductsRoute (DbOutcome.failed "boom") = Except.error "boom" :=
  routeErrorHandling_spec "boom" ⟨1, "P", "S", 0, "L", "Sup", 0⟩

/-! ### Claim C10: frame of a sale recording -/

/-- Claim C10: recording a sale touches only the quantity field of the
referenced products.  Whatever the outcome, the products collection keeps its
length, order and every non-quantity field (id, name, sku, location, supplier,
createdAt); and a product referenced by no line item of the request is
entirely unchanged, remaining in the collection as-is. -/
theorem postSales_frame (store : Store) (now : Nat) (req : SaleRequest) :
    (postSales store now req).2.products.map frameFields = store.products.map frameFields ∧
    ∀ p ∈ store.products,
      (∀ items, req.items = some items → ∀ item ∈ items, item.productId ≠ some p.id) →
        p ∈ (postSales store now req).2.products := by
  rcases postSales_products_cases store now req with h | ⟨items, hit, h⟩
  · rw [h]
    exact ⟨rfl, fun p hp _ => hp⟩
  · rw [h]
    constructor
    · rw [List.map_map]
      rfl
    · intro p hp href
      have hz : itemsTotal items p.id = 0 := itemsTotal_eq_zero (href items hit)
      refine List.mem_map.mpr ⟨p, hp, ?_⟩
      rw [hz, sub_zero]

/-- Witness for C10: selling product 1 keeps every non-quantity field of the
collection and leaves the unreferenced product 2 entirely unchanged. -/
theorem postSales_frame_witness :
    (postSales ⟨[⟨1, "P", "S", 10, "L", "Sup", 0⟩, ⟨2, "Gadget", "G1", 4, "B2", "Bolt", 1⟩], []⟩ 0
        ⟨"web", some [⟨some 1, 3⟩], none⟩).2.products.map frameFields
      = [(1, "P", "S", "L", "Sup", 0), (2, "Gadget", "G1", "B2", "Bolt", 1)] ∧
    (⟨2, "Gadget", "G1", 4, "B2", "Bolt", 1⟩ : Product) ∈
      (postSales ⟨[⟨1, "P", "S", 10, "L", "Sup", 0⟩, ⟨2, "Gadget", "G1", 4, "B2", "Bolt", 1⟩], []⟩ 0
        ⟨"web", some [⟨some 1, 3⟩], none⟩).2.products := by
  have h := postSales_frame
    ⟨[⟨1, "P", "S", 10, "L", "Sup", 0⟩, ⟨2, "Gadget", "G1", 4, "B2", "Bolt", 1⟩], []⟩ 0
    ⟨"web", some [⟨some 1, 3⟩], none⟩
  refine ⟨h.1.trans (by decide), ?_⟩
  apply h.2 ⟨2, "Gadget", "G1", 4, "B2", "Bolt", 1⟩ (by decide)
  intro items hit item hm
  have hits : ([⟨some 1, 3⟩] : List SaleItem) = items := Option.some.inj hit
  subst hits
  have hitem : item = (⟨some 1, 3⟩ : SaleItem) := by simpa using hm
  subst hitem
  decide

end Warehouse
